import Mathlib

/-!
# SVF symbol table (`include/MemoryModel/SymbolTableInfo.h`)

A shallow embedding of the class `SVF::SymbolTableInfo`.

* Pointers (`const Value*`, `const Function*`, `const Type*`, `Module*`) are
  addresses, modelled as natural numbers; `0` is `nullptr`.
* `OrderedMap<K, V>` (a `std::map`) is a key-ordered association list with
  `find` and the assignment `m[k] = v`.
* A heap object reached through a pointer stored in a map (`ObjSym*`,
  `StInfo*`, `DataLayout*`) is stored by value in the model.
* A failing `assert` aborts the analysis: an operation returns an `Outcome`,
  either `ok` with the returned value and the registry afterwards, or `fatal`
  with the assertion that failed and the registry at the moment of the abort.
-/

namespace SVF

/-! ## Basic types -/

/-- The type `NodeID` (an unsigned 32-bit integer in the source; only compared, never computed with). -/
abbrev NodeID := Nat
/-- The type `SymID`, the same integers as `NodeID`. -/
abbrev SymID := NodeID
/-- The address held by a `const Value*`. -/
abbrev Value := Nat
/-- The address held by a `const Function*`. -/
abbrev Function := Nat
/-- The address held by a `const Type*`; `0` is `nullptr`. -/
abbrev TypePtr := Nat
/-- The address held by a `Module*` or `SVFModule*`; `0` is `nullptr`. -/
abbrev ModulePtr := Nat

/-- The null pointer. -/
def nullptr : Nat := 0

/-! ## `OrderedMap` -/

/-- An `OrderedMap<K, V>` with address or integer keys: the entries in key order. -/
abbrev OrderedMap (V : Type) := List (Nat × V)

namespace OrderedMap

/-- The call `m.find(k)`: the value of the first entry with key `k`, `none` standing for `m.end()`. -/
def find {V : Type} : OrderedMap V → Nat → Option V
  | [], _ => none
  | (k', v) :: rest, k => if k' = k then some v else find rest k

/-- The test `m.find(k) != m.end()`. -/
def contains {V : Type} (m : OrderedMap V) (k : Nat) : Bool :=
  (find m k).isSome

/-- The assignment `m[k] = v`: replaces the value stored under `k`, or inserts
the entry at its place in key order when `k` is not a key. -/
def assign {V : Type} : OrderedMap V → Nat → V → OrderedMap V
  | [], k, v => [(k, v)]
  | (k', v') :: rest, k, v =>
    if k < k' then (k, v) :: (k', v') :: rest
    else if k = k' then (k, v) :: rest
    else (k', v') :: assign rest k v

/-- The values stored in the map, in key order. -/
def values {V : Type} (m : OrderedMap V) : List V := m.map Prod.snd

end OrderedMap

/-! ## Parts declared outside `SymbolTableInfo.h` -/

/-- Modelled from the spec: the four reserved symbol IDs `NullPtr`, `BlkPtr`,
`BlackHole`, `ConstantObj`. Their declaration (in `MemoryModel/SVFSymbols.h`)
lies outside this header; the spec fixes them as "four distinct constants",
"fixed before any allocation". -/
structure ReservedIDs where
  NullPtr : SymID
  BlkPtr : SymID
  BlackHole : SymID
  ConstantObj : SymID
  distinct : [NullPtr, BlkPtr, BlackHole, ConstantObj].Nodup

/-- Modelled from the spec: the per-object metadata `ObjTypeInfo` ("size, field
count, special flags" and a nullable type), declared in
`MemoryModel/SVFSymbols.h`. -/
structure ObjTypeInfo where
  type : TypePtr
  byteSize : Nat
  fieldCount : Nat
  flags : Nat
deriving DecidableEq, Repr

/-- Modelled from the spec: the discriminant of an object symbol; in the source
the classes `ObjSym`, `BlackHoleSym` and `ConstantObjSym` of
`MemoryModel/SVFSymbols.h`. -/
inductive ObjKind where
  | ordinary
  | blackhole
  | constant
deriving DecidableEq, Repr

/-- Modelled from the spec: an object symbol, "owning SymbolID, associated
ObjTypeInfo, and a discriminant". `ObjSym.mk .blackhole id ti` stands for
`new BlackHoleSym(id, ti)`, and likewise for the other two classes. -/
structure ObjSym where
  kind : ObjKind
  symId : SymID
  typeInfo : ObjTypeInfo
deriving DecidableEq, Repr

/-- Modelled from the spec: one flattened field descriptor, "a sub-type
reference, a byte offset, and a logical field index". -/
structure FieldInfo where
  fldIdx : Nat
  byteOffset : Nat
  type : TypePtr
deriving DecidableEq, Repr

/-- Modelled from the spec: the flattened type info `StInfo`, the field
descriptors "plus the two parallel derived vectors (field-index list,
field-offset list)". -/
structure StInfo where
  fldIdxVec : List Nat
  foffset : List Nat
  finfo : List FieldInfo
deriving DecidableEq, Repr

/-- The handle built by `new DataLayout(mod)`: the data layout of module `mod`. -/
structure DataLayout where
  ofModule : ModulePtr
deriving DecidableEq, Repr

/-- Modelled from the spec: a location set, reduced to the flattened field
index it denotes (a signed offset). -/
structure LocationSet where
  fldIdx : Int
deriving DecidableEq, Repr

/-! ## The registry -/

/-- The data members of `SymbolTableInfo`, the two static members `dl` and
`maxFieldLimit` included. -/
structure SymbolTableInfo where
  dl : Option DataLayout
  valSymMap : OrderedMap SymID
  objSymMap : OrderedMap SymID
  returnSymMap : OrderedMap SymID
  varargSymMap : OrderedMap SymID
  symSet : List Nat
  objMap : OrderedMap ObjSym
  callSiteSet : List Nat
  mod : ModulePtr
  maxFieldLimit : Nat
  modelConstants : Bool
  totalSymNum : SymID
  typeToFieldInfo : OrderedMap StInfo
  maxStruct : TypePtr
  maxStSize : Nat
deriving DecidableEq, Repr

/-- The constructor `SymbolTableInfo(void)`, on top of the initial values of
the static members (`dl` null, the field limit as configured). -/
def SymbolTableInfo.init (maxFieldLimit : Nat) : SymbolTableInfo :=
  { dl := none, valSymMap := [], objSymMap := [], returnSymMap := [], varargSymMap := [],
    symSet := [], objMap := [], callSiteSet := [], mod := nullptr,
    maxFieldLimit := maxFieldLimit, modelConstants := false, totalSymNum := 0,
    typeToFieldInfo := [], maxStruct := nullptr, maxStSize := 0 }

/-- The assertions of `SymbolTableInfo.h`, and the dereference of an end iterator. -/
inductive Fatal where
  | notBlkObj
  | notConstantObj
  | objAlreadyCreated
  | dummyObjCreatedBefore
  | valSymNotFound
  | objSymNotFound
  | objNotFound
  | retSymNotFound
  | varargSymNotFound
  | nullType
  | derefEnd
  | external
deriving DecidableEq, Repr

/-- What a member function does: it returns `val` and leaves the registry `st`,
or an assertion fails and the analysis aborts with the registry `st`. -/
inductive Outcome (α : Type) where
  | ok (val : α) (st : SymbolTableInfo)
  | fatal (err : Fatal) (st : SymbolTableInfo)
deriving DecidableEq, Repr

/-- The functions that `SymbolTableInfo.h` only declares or calls:
`isNullPtrSym`, `isBlackholeSym` and `createObjTypeInfo` are defined in the
implementation file, `getGlobalRep` in `SVFUtil`. `createObjTypeInfo` reads
the type only (the layout is "computed lazily, not eagerly"). -/
structure Externals where
  isNullPtrSym : Value → Bool
  isBlackholeSym : Value → Bool
  getGlobalRep : Value → Value
  createObjTypeInfo : TypePtr → ObjTypeInfo

/-! ## Member functions of `SymbolTableInfo` -/

/-- The static member `getDataLayout(Module* mod)`. -/
def getDataLayout (s : SymbolTableInfo) (mod : ModulePtr) : Outcome DataLayout :=
  match s.dl with
  | none => .ok (DataLayout.mk mod) { s with dl := some (DataLayout.mk mod) }
  | some d => .ok d s

/-- The member `isBlkPtr(NodeID id)`. -/
def isBlkPtr (r : ReservedIDs) (id : NodeID) : Bool := id == r.BlkPtr

/-- The member `isNullPtr(NodeID id)`. -/
def isNullPtr (r : ReservedIDs) (id : NodeID) : Bool := id == r.NullPtr

/-- The member `isBlkObj(NodeID id)`. -/
def isBlkObj (r : ReservedIDs) (id : NodeID) : Bool := id == r.BlackHole

/-- The member `isConstantObj(NodeID id)`. -/
def isConstantObj (r : ReservedIDs) (id : NodeID) : Bool := id == r.ConstantObj

/-- The member `isBlkObjOrConstantObj(NodeID id)`. -/
def isBlkObjOrConstantObj (r : ReservedIDs) (id : NodeID) : Bool :=
  isBlkObj r id || isConstantObj r id

/-- The member `blkPtrSymID()`. -/
def blkPtrSymID (r : ReservedIDs) : SymID := r.BlkPtr

/-- The member `nullPtrSymID()`. -/
def nullPtrSymID (r : ReservedIDs) : SymID := r.NullPtr

/-- The member `constantSymID()`. -/
def constantSymID (r : ReservedIDs) : SymID := r.ConstantObj

/-- The member `blackholeSymID()`. -/
def blackholeSymID (r : ReservedIDs) : SymID := r.BlackHole

/-- The member `createBlkObj(SymID symId)`: two assertions, then
`objMap[symId] = new BlackHoleSym(symId, createObjTypeInfo())`. -/
def createBlkObj (r : ReservedIDs) (ext : Externals) (s : SymbolTableInfo) (symId : SymID) :
    Outcome ObjSym :=
  if isBlkObj r symId then
    if OrderedMap.find s.objMap symId = none then
      let obj := ObjSym.mk .blackhole symId (ext.createObjTypeInfo nullptr)
      .ok obj { s with objMap := OrderedMap.assign s.objMap symId obj }
    else .fatal .objAlreadyCreated s
  else .fatal .notBlkObj s

/-- The member `createConstantObj(SymID symId)`: two assertions, then
`objMap[symId] = new ConstantObjSym(symId, createObjTypeInfo())`. -/
def createConstantObj (r : ReservedIDs) (ext : Externals) (s : SymbolTableInfo) (symId : SymID) :
    Outcome ObjSym :=
  if isConstantObj r symId then
    if OrderedMap.find s.objMap symId = none then
      let obj := ObjSym.mk .constant symId (ext.createObjTypeInfo nullptr)
      .ok obj { s with objMap := OrderedMap.assign s.objMap symId obj }
    else .fatal .objAlreadyCreated s
  else .fatal .notConstantObj s

/-- The member `createDummyObj(SymID symId, const Type* type)`: one assertion,
then `objMap[symId] = new ObjSym(symId, createObjTypeInfo(type))`. -/
def createDummyObj (ext : Externals) (s : SymbolTableInfo) (symId : SymID) (type : TypePtr) :
    Outcome ObjSym :=
  if OrderedMap.find s.objMap symId = none then
    let memObj := ObjSym.mk .ordinary symId (ext.createObjTypeInfo type)
    .ok memObj { s with objMap := OrderedMap.assign s.objMap symId memObj }
  else .fatal .dummyObjCreatedBefore s

/-- The member `getValSym(const Value* val)`. -/
def getValSym (r : ReservedIDs) (ext : Externals) (s : SymbolTableInfo) (val : Value) :
    Outcome SymID :=
  if ext.isNullPtrSym val then .ok (nullPtrSymID r) s
  else if ext.isBlackholeSym val then .ok (blkPtrSymID r) s
  else
    match OrderedMap.find s.valSymMap val with
    | some id => .ok id s
    | none => .fatal .valSymNotFound s

/-- The member `hasValSym(const Value* val)`. -/
def hasValSym (ext : Externals) (s : SymbolTableInfo) (val : Value) : Outcome Bool :=
  if ext.isNullPtrSym val || ext.isBlackholeSym val then .ok true s
  else .ok (OrderedMap.contains s.valSymMap val) s

/-- The member `getObjSym(const Value* val)`. -/
def getObjSym (ext : Externals) (s : SymbolTableInfo) (val : Value) : Outcome SymID :=
  match OrderedMap.find s.objSymMap (ext.getGlobalRep val) with
  | some id => .ok id s
  | none => .fatal .objSymNotFound s

/-- The member `getObj(SymID id)`. -/
def getObj (s : SymbolTableInfo) (id : SymID) : Outcome ObjSym :=
  match OrderedMap.find s.objMap id with
  | some obj => .ok obj s
  | none => .fatal .objNotFound s

/-- The member `getRetSym(const Function* val)`. -/
def getRetSym (s : SymbolTableInfo) (val : Function) : Outcome SymID :=
  match OrderedMap.find s.returnSymMap val with
  | some id => .ok id s
  | none => .fatal .retSymNotFound s

/-- The member `getVarargSym(const Function* val)`. -/
def getVarargSym (s : SymbolTableInfo) (val : Function) : Outcome SymID :=
  match OrderedMap.find s.varargSymMap val with
  | some id => .ok id s
  | none => .fatal .varargSymNotFound s

/-- The member `getBlkObj()`. -/
def getBlkObj (r : ReservedIDs) (s : SymbolTableInfo) : Outcome ObjSym :=
  getObj s (blackholeSymID r)

/-- The member `getConstantObj()`. -/
def getConstantObj (r : ReservedIDs) (s : SymbolTableInfo) : Outcome ObjSym :=
  getObj s (constantSymID r)

/-- The member `getStructInfoIter(const Type* T)`. The iterator it returns is
the entry it points to, `none` for `typeToFieldInfo.end()`. `collectTypeInfo`
is defined in the implementation file and is a parameter here: any function
that may change the registry, or abort. -/
def getStructInfoIter (collectTypeInfo : SymbolTableInfo → TypePtr → Outcome Unit)
    (s : SymbolTableInfo) (T : TypePtr) : Outcome (Option (TypePtr × StInfo)) :=
  if T = nullptr then .fatal .nullType s
  else
    match OrderedMap.find s.typeToFieldInfo T with
    | some st => .ok (some (T, st)) s
    | none =>
      match collectTypeInfo s T with
      | .ok _ s' => .ok ((OrderedMap.find s'.typeToFieldInfo T).map (fun st => (T, st))) s'
      | .fatal e s' => .fatal e s'

/-- The member `getStructInfo(const Type* T)`, `getStructInfoIter(T)->second`;
dereferencing the end iterator aborts. -/
def getStructInfo (collectTypeInfo : SymbolTableInfo → TypePtr → Outcome Unit)
    (s : SymbolTableInfo) (T : TypePtr) : Outcome StInfo :=
  match getStructInfoIter collectTypeInfo s T with
  | .ok (some (_, st)) s' => .ok st s'
  | .ok none s' => .fatal .derefEnd s'
  | .fatal e s' => .fatal e s'

/-- Modelled from the spec: `getModulusOffset(obj, ls)`, declared in the header
and defined in the implementation file. The spec: "wrap the best-known offset
into `[0, totalFlattenedFieldCount)` using modulus against the object's total
field count", "unresolved offsets never abort the analysis". -/
def getModulusOffset (s : SymbolTableInfo) (obj : ObjSym) (ls : LocationSet) :
    Outcome LocationSet :=
  .ok (LocationSet.mk (ls.fldIdx % (obj.typeInfo.fieldCount : Int))) s

/-! ## Reading an outcome -/

/-- The value returned, `none` when the call aborted. -/
def Outcome.result {α : Type} : Outcome α → Option α
  | .ok val _ => some val
  | .fatal _ _ => none

/-- Whether the call aborted on a failed assertion. -/
def Outcome.isFatal {α : Type} : Outcome α → Bool
  | .ok _ _ => false
  | .fatal _ _ => true

/-- The registry after the call (at the abort, when it aborted). -/
def Outcome.state {α : Type} : Outcome α → SymbolTableInfo
  | .ok _ st => st
  | .fatal _ st => st

/-! ## Population of the registry

The registry allocates no ID itself. The table builder (a friend class) fills
the maps through the accessors `valSyms()`, `objSyms()`, `retSyms()`,
`varargSyms()`, `idToObjMap()`, which return the maps by mutable reference,
and through the `create*` members. -/

/-- The accessor `valSyms()`. -/
def valSyms (s : SymbolTableInfo) : OrderedMap SymID := s.valSymMap

/-- The accessor `objSyms()`. -/
def objSyms (s : SymbolTableInfo) : OrderedMap SymID := s.objSymMap

/-- The accessor `idToObjMap()`. -/
def idToObjMap (s : SymbolTableInfo) : OrderedMap ObjSym := s.objMap

/-- The accessor `retSyms()`. -/
def retSyms (s : SymbolTableInfo) : OrderedMap SymID := s.returnSymMap

/-- The accessor `varargSyms()`. -/
def varargSyms (s : SymbolTableInfo) : OrderedMap SymID := s.varargSymMap

/-- One registration step of the table builder: a write through one of the
accessors (`valSyms()[val] = id`, and likewise for the other maps), or a call
of a `create*` member. -/
inductive RegOp where
  | setValSym (val : Value) (id : SymID)
  | setObjSym (val : Value) (id : SymID)
  | setRetSym (f : Function) (id : SymID)
  | setVarargSym (f : Function) (id : SymID)
  | setObj (id : SymID) (obj : ObjSym)
  | createBlkObj (id : SymID)
  | createConstantObj (id : SymID)
  | createDummyObj (id : SymID) (type : TypePtr)
deriving DecidableEq, Repr

/-- The outcome without the returned value. -/
def Outcome.discard {α : Type} : Outcome α → Outcome Unit
  | .ok _ st => .ok () st
  | .fatal e st => .fatal e st

/-- The effect of one registration step. -/
def RegOp.apply (r : ReservedIDs) (ext : Externals) (s : SymbolTableInfo) : RegOp → Outcome Unit
  | .setValSym val id => .ok () { s with valSymMap := OrderedMap.assign (valSyms s) val id }
  | .setObjSym val id => .ok () { s with objSymMap := OrderedMap.assign (objSyms s) val id }
  | .setRetSym f id => .ok () { s with returnSymMap := OrderedMap.assign (retSyms s) f id }
  | .setVarargSym f id => .ok () { s with varargSymMap := OrderedMap.assign (varargSyms s) f id }
  | .setObj id obj => .ok () { s with objMap := OrderedMap.assign (idToObjMap s) id obj }
  | .createBlkObj id => (SVF.createBlkObj r ext s id).discard
  | .createConstantObj id => (SVF.createConstantObj r ext s id).discard
  | .createDummyObj id type => (SVF.createDummyObj ext s id type).discard

/-- The IDs stored in the four ID maps. -/
def storedIDs (s : SymbolTableInfo) : List SymID :=
  OrderedMap.values s.valSymMap ++ OrderedMap.values s.objSymMap ++
    OrderedMap.values s.returnSymMap ++ OrderedMap.values s.varargSymMap

/-- The IDs stored in the value, return and vararg maps: the IDs of the
entities that are no memory object. -/
def nonObjectIDs (s : SymbolTableInfo) : List SymID :=
  OrderedMap.values s.valSymMap ++ OrderedMap.values s.returnSymMap ++
    OrderedMap.values s.varargSymMap

/-- The four reserved IDs. -/
def ReservedIDs.all (r : ReservedIDs) : List SymID :=
  [r.NullPtr, r.BlkPtr, r.BlackHole, r.ConstantObj]

/-- An ID that is new for an ID map: stored in none of the four ID maps, no
key of the object map, and none of the four reserved IDs. -/
def freshSymID (r : ReservedIDs) (s : SymbolTableInfo) (id : SymID) : Bool :=
  decide (id ∉ storedIDs s ∧ OrderedMap.find s.objMap id = none ∧ id ∉ r.all)

/-- An ID under which an object may be added: no key of the object map yet,
not the ID of a value, a return slot or a vararg slot, and neither `NullPtr`
nor `BlkPtr`. It may be the ID of an object symbol (the object of that
symbol), one of `BlackHole` and `ConstantObj`, or new. -/
def freshObjID (r : ReservedIDs) (s : SymbolTableInfo) (id : SymID) : Bool :=
  decide (OrderedMap.find s.objMap id = none ∧ id ∉ nonObjectIDs s ∧
    id ≠ r.NullPtr ∧ id ≠ r.BlkPtr)

/-- The discipline of a builder that allocates a new ID for every entity.
A write to an ID map adds a key that is not yet present, with an ID that is
new (`freshSymID`). An object is added under an ID that is free for an object
(`freshObjID`); written through `idToObjMap()` it owns the ID it is stored
under, which may be the ID of an object symbol: it is then the memory object
of that symbol. A dummy object gets an ID that no ID map stores, and only
`createBlkObj` and `createConstantObj` use `BlackHole` and `ConstantObj`. -/
def RegOp.fresh (r : ReservedIDs) (s : SymbolTableInfo) : RegOp → Bool
  | .setValSym val id => decide (OrderedMap.find s.valSymMap val = none) && freshSymID r s id
  | .setObjSym val id => decide (OrderedMap.find s.objSymMap val = none) && freshSymID r s id
  | .setRetSym f id => decide (OrderedMap.find s.returnSymMap f = none) && freshSymID r s id
  | .setVarargSym f id => decide (OrderedMap.find s.varargSymMap f = none) && freshSymID r s id
  | .setObj id obj =>
    decide (obj.symId = id ∧ id ≠ r.BlackHole ∧ id ≠ r.ConstantObj) && freshObjID r s id
  | .createBlkObj id => freshObjID r s id
  | .createConstantObj id => freshObjID r s id
  | .createDummyObj id _ =>
    decide (id ∉ storedIDs s ∧ id ≠ r.BlackHole ∧ id ≠ r.ConstantObj) && freshObjID r s id

/-- Whether every step of a run keeps the discipline `RegOp.fresh` in the
registry it is applied to. -/
def freshRun (r : ReservedIDs) (ext : Externals) : SymbolTableInfo → List RegOp → Bool
  | _, [] => true
  | s, op :: ops => op.fresh r s && freshRun r ext (op.apply r ext s).state ops

/-- What a successful `create*` call for `id` leaves behind: `obj` is stored
under `id`, the other entries of the object map and all other members of the
registry are as before, and `getObj(id)` returns `obj`. -/
def CreatedAt (s : SymbolTableInfo) (id : SymID) (obj : ObjSym) (s' : SymbolTableInfo) : Prop :=
  s' = { s with objMap := s'.objMap } ∧
  OrderedMap.find s'.objMap id = some obj ∧
  (∀ id2 : SymID, id2 ≠ id → OrderedMap.find s'.objMap id2 = OrderedMap.find s.objMap id2) ∧
  getObj s' id = .ok obj s'

/-- The ID maps and the object map of `s2` hold every entry of those of `s1`. -/
def Extends (s1 s2 : SymbolTableInfo) : Prop :=
  (∀ k i, OrderedMap.find s1.valSymMap k = some i → OrderedMap.find s2.valSymMap k = some i) ∧
  (∀ k i, OrderedMap.find s1.objSymMap k = some i → OrderedMap.find s2.objSymMap k = some i) ∧
  (∀ k i, OrderedMap.find s1.returnSymMap k = some i →
    OrderedMap.find s2.returnSymMap k = some i) ∧
  (∀ k i, OrderedMap.find s1.varargSymMap k = some i →
    OrderedMap.find s2.varargSymMap k = some i) ∧
  (∀ k o, OrderedMap.find s1.objMap k = some o → OrderedMap.find s2.objMap k = some o)

/-! ## Example data -/

/-- One choice of the reserved IDs: `NullPtr`, `BlkPtr`, `BlackHole`, `ConstantObj` numbered from 0. -/
def exampleIDs : ReservedIDs :=
  { NullPtr := 0, BlkPtr := 1, BlackHole := 2, ConstantObj := 3, distinct := by decide }

/-- One choice of the outside functions: value 100 is the null-pointer
sentinel, value 101 the blackhole sentinel, value 11 is an alias of the global
10, and an object's metadata has one field. -/
def exampleExt : Externals :=
  { isNullPtrSym := fun v => v == 100
    isBlackholeSym := fun v => v == 101
    getGlobalRep := fun v => if v = 11 then 10 else v
    createObjTypeInfo := fun t => ObjTypeInfo.mk t 0 1 0 }

/-- A small populated registry. -/
def exampleTable : SymbolTableInfo :=
  { SymbolTableInfo.init 512 with
    valSymMap := [(10, 4), (12, 5), (100, 9)]
    objSymMap := [(10, 6)]
    returnSymMap := [(20, 7)]
    varargSymMap := [(20, 8)]
    objMap := [(6, ObjSym.mk .ordinary 6 (ObjTypeInfo.mk 30 8 2 0))]
    typeToFieldInfo := [(30, StInfo.mk [0, 1] [0, 4] [FieldInfo.mk 0 0 31, FieldInfo.mk 1 4 31])] }

/-- Registration steps that give the values 10 and 12 the same ID 7. -/
def sharedIdRun : List RegOp := [.setValSym 10 7, .setValSym 12 7]

/-- A collector for examples: it caches a one-field layout for the type. -/
def exampleCollect (s : SymbolTableInfo) (T : TypePtr) : Outcome Unit :=
  .ok () { s with
    typeToFieldInfo := OrderedMap.assign s.typeToFieldInfo T (StInfo.mk [0] [0] [FieldInfo.mk 0 0 T]) }

/-- A collector that always aborts. -/
def abortingCollect (s : SymbolTableInfo) (_T : TypePtr) : Outcome Unit :=
  .fatal .external s

/-! ## Lemmas on `OrderedMap` -/

namespace OrderedMap

theorem find_assign_self {V : Type} (m : OrderedMap V) (k : Nat) (v : V) :
    find (assign m k v) k = some v := by
  induction m with
  | nil => simp [assign, find]
  | cons hd tl ih =>
    obtain ⟨k', v'⟩ := hd
    by_cases h1 : k < k'
    · simp [assign, find, h1]
    · by_cases h2 : k = k'
      · simp [assign, find, h2]
      · have h3 : ¬ k' = k := fun h => h2 h.symm
        simp [assign, find, h1, h2, h3, ih]

theorem find_assign_of_ne {V : Type} (m : OrderedMap V) (k k2 : Nat) (v : V) (hne : k2 ≠ k) :
    find (assign m k v) k2 = find m k2 := by
  have hne' : ¬ k = k2 := fun h => hne h.symm
  induction m with
  | nil => simp [assign, find, hne']
  | cons hd tl ih =>
    obtain ⟨k', v'⟩ := hd
    by_cases h1 : k < k'
    · simp [assign, find, h1, hne']
    · by_cases h2 : k = k'
      · subst h2
        simp [assign, find, hne']
      · simp only [assign, h1, h2, if_false, find, ih]

theorem contains_eq_true_iff {V : Type} (m : OrderedMap V) (k : Nat) :
    contains m k = true ↔ find m k ≠ none := by
  simp [contains, Option.isSome_iff_ne_none]

end OrderedMap

/-! ## Reserved IDs -/

theorem ReservedIDs.pairwise_ne (r : ReservedIDs) :
    r.NullPtr ≠ r.BlkPtr ∧ r.NullPtr ≠ r.BlackHole ∧ r.NullPtr ≠ r.ConstantObj ∧
      r.BlkPtr ≠ r.BlackHole ∧ r.BlkPtr ≠ r.ConstantObj ∧ r.BlackHole ≠ r.ConstantObj := by
  have hd := r.distinct
  simp only [List.nodup_cons, List.mem_cons, List.mem_singleton, List.not_mem_nil,
    not_or, List.nodup_nil, and_true, not_false_eq_true] at hd
  obtain ⟨⟨h1, h2, h3⟩, ⟨h4, h5⟩, h6⟩ := hd
  exact ⟨h1, h2, h3, h4, h5, h6⟩

/-- C1: the four reserved IDs are pairwise different; each of `isNullPtr`,
`isBlkPtr`, `isBlkObj`, `isConstantObj` holds of an ID exactly when the ID is
the reserved one; so an ID satisfies at most one of the four. The predicates
do not read the registry. -/
theorem reserved_ids_classification (r : ReservedIDs) :
    (r.NullPtr ≠ r.BlkPtr ∧ r.NullPtr ≠ r.BlackHole ∧ r.NullPtr ≠ r.ConstantObj ∧
      r.BlkPtr ≠ r.BlackHole ∧ r.BlkPtr ≠ r.ConstantObj ∧ r.BlackHole ≠ r.ConstantObj) ∧
    (∀ id : NodeID,
      (isNullPtr r id = true ↔ id = r.NullPtr) ∧ (isBlkPtr r id = true ↔ id = r.BlkPtr) ∧
      (isBlkObj r id = true ↔ id = r.BlackHole) ∧
      (isConstantObj r id = true ↔ id = r.ConstantObj)) ∧
    (∀ id : NodeID,
      [isNullPtr r id, isBlkPtr r id, isBlkObj r id, isConstantObj r id].count true ≤ 1) := by
  obtain ⟨h1, h2, h3, h4, h5, h6⟩ := r.pairwise_ne
  refine ⟨⟨h1, h2, h3, h4, h5, h6⟩, ?_, ?_⟩
  · intro id
    simp [isNullPtr, isBlkPtr, isBlkObj, isConstantObj]
  · intro id
    by_cases a : id = r.NullPtr
    · subst a
      simp [isNullPtr, isBlkPtr, isBlkObj, isConstantObj, h1, h2, h3]
    · by_cases b : id = r.BlkPtr
      · subst b
        simp [isNullPtr, isBlkPtr, isBlkObj, isConstantObj, h4, h5, a]
      · by_cases c : id = r.BlackHole
        · subst c
          simp [isNullPtr, isBlkPtr, isBlkObj, isConstantObj, h6, a, b]
        · simp [isNullPtr, isBlkPtr, isBlkObj, isConstantObj, a, b, c, List.count_cons]
          split <;> simp

/-! ## Lookups -/

/-- C2: `getValSym` returns `NullPtr` for a null-pointer sentinel; otherwise
`BlkPtr` for a blackhole sentinel, in both cases whatever the value map holds;
otherwise the ID stored under the value; and it aborts exactly when the value
is no sentinel and not a key of the value map. The registry is left as it was. -/
theorem getValSym_spec (r : ReservedIDs) (ext : Externals) (s : SymbolTableInfo) (v : Value) :
    (ext.isNullPtrSym v = true → getValSym r ext s v = .ok r.NullPtr s) ∧
    (ext.isNullPtrSym v = false → ext.isBlackholeSym v = true →
      getValSym r ext s v = .ok r.BlkPtr s) ∧
    (ext.isNullPtrSym v = false → ext.isBlackholeSym v = false →
      ∀ id, OrderedMap.find s.valSymMap v = some id → getValSym r ext s v = .ok id s) ∧
    ((getValSym r ext s v).isFatal = true ↔
      (ext.isNullPtrSym v = false ∧ ext.isBlackholeSym v = false ∧
        OrderedMap.find s.valSymMap v = none)) ∧
    (getValSym r ext s v).state = s := by
  unfold getValSym nullPtrSymID blkPtrSymID
  cases hn : ext.isNullPtrSym v <;> cases hb : ext.isBlackholeSym v <;>
    cases hf : OrderedMap.find s.valSymMap v <;>
    simp [Outcome.isFatal, Outcome.state]

/-- C2, at a concrete registry: a sentinel that also has an entry in the value
map, a registered value, and an unregistered one. -/
theorem getValSym_spec_witness :
    getValSym exampleIDs exampleExt exampleTable 100 = .ok 0 exampleTable ∧
    getValSym exampleIDs exampleExt exampleTable 101 = .ok 1 exampleTable ∧
    getValSym exampleIDs exampleExt exampleTable 12 = .ok 5 exampleTable ∧
    (getValSym exampleIDs exampleExt exampleTable 13).isFatal = true :=
  ⟨(getValSym_spec exampleIDs exampleExt exampleTable 100).1 (by decide),
   (getValSym_spec exampleIDs exampleExt exampleTable 101).2.1 (by decide) (by decide),
   (getValSym_spec exampleIDs exampleExt exampleTable 12).2.2.1 (by decide) (by decide) 5
     (by decide),
   (getValSym_spec exampleIDs exampleExt exampleTable 13).2.2.2.1.2
     ⟨by decide, by decide, by decide⟩⟩

/-- C3: `getObj`, `getRetSym`, `getVarargSym` and `getObjSym` return the entry
of their own map under their key (for `getObjSym` the key is the global
representative of the value), abort exactly when the key is absent, and leave
the registry as it was; two values with the same representative get the same
outcome from `getObjSym`. -/
theorem lookups_are_map_lookups (ext : Externals) (s : SymbolTableInfo) :
    (∀ id : SymID, (getObj s id).result = OrderedMap.find s.objMap id ∧
      ((getObj s id).isFatal = true ↔ OrderedMap.find s.objMap id = none) ∧
      (getObj s id).state = s) ∧
    (∀ f : Function, (getRetSym s f).result = OrderedMap.find s.returnSymMap f ∧
      ((getRetSym s f).isFatal = true ↔ OrderedMap.find s.returnSymMap f = none) ∧
      (getRetSym s f).state = s) ∧
    (∀ f : Function, (getVarargSym s f).result = OrderedMap.find s.varargSymMap f ∧
      ((getVarargSym s f).isFatal = true ↔ OrderedMap.find s.varargSymMap f = none) ∧
      (getVarargSym s f).state = s) ∧
    (∀ v : Value,
      (getObjSym ext s v).result = OrderedMap.find s.objSymMap (ext.getGlobalRep v) ∧
      ((getObjSym ext s v).isFatal = true ↔
        OrderedMap.find s.objSymMap (ext.getGlobalRep v) = none) ∧
      (getObjSym ext s v).state = s) ∧
    (∀ v w : Value, ext.getGlobalRep v = ext.getGlobalRep w →
      getObjSym ext s v = getObjSym ext s w) := by
  refine ⟨?_, ?_, ?_, ?_, ?_⟩
  · intro id
    unfold getObj
    cases OrderedMap.find s.objMap id <;> simp [Outcome.result, Outcome.isFatal, Outcome.state]
  · intro f
    unfold getRetSym
    cases OrderedMap.find s.returnSymMap f <;>
      simp [Outcome.result, Outcome.isFatal, Outcome.state]
  · intro f
    unfold getVarargSym
    cases OrderedMap.find s.varargSymMap f <;>
      simp [Outcome.result, Outcome.isFatal, Outcome.state]
  · intro v
    unfold getObjSym
    cases OrderedMap.find s.objSymMap (ext.getGlobalRep v) <;>
      simp [Outcome.result, Outcome.isFatal, Outcome.state]
  · intro v w h
    unfold getObjSym
    rw [h]

/-- C3, at a concrete registry: the alias 11 of the global 10 gets the object
symbol of 10, and an absent key aborts. -/
theorem lookups_are_map_lookups_witness :
    getObjSym exampleExt exampleTable 11 = getObjSym exampleExt exampleTable 10 ∧
    (getObjSym exampleExt exampleTable 11).result = some 6 ∧
    (getRetSym exampleTable 21).isFatal = true :=
  ⟨(lookups_are_map_lookups exampleExt exampleTable).2.2.2.2 11 10 (by decide),
   ((lookups_are_map_lookups exampleExt exampleTable).2.2.2.1 11).1.trans (by decide),
   ((lookups_are_map_lookups exampleExt exampleTable).2.1 21).2.1.2 (by decide)⟩

/-- C10: `hasValSym` never aborts and leaves the registry as it was; it
returns `true` exactly when `getValSym` returns an ID, that is when the value
is a null-pointer sentinel, a blackhole sentinel or a key of the value map. -/
theorem hasValSym_iff_getValSym_succeeds (r : ReservedIDs) (ext : Externals)
    (s : SymbolTableInfo) (v : Value) :
    ∃ b : Bool, hasValSym ext s v = .ok b s ∧
      (b = true ↔ ∃ id, getValSym r ext s v = .ok id s) ∧
      (b = true ↔ (getValSym r ext s v).isFatal = false) ∧
      (b = true ↔ (ext.isNullPtrSym v = true ∨ ext.isBlackholeSym v = true ∨
        OrderedMap.find s.valSymMap v ≠ none)) := by
  unfold hasValSym getValSym OrderedMap.contains
  cases hn : ext.isNullPtrSym v <;> cases hb : ext.isBlackholeSym v <;>
    cases hf : OrderedMap.find s.valSymMap v <;>
    simp [Outcome.isFatal]

/-! ## Creation of objects -/

theorem createBlkObj_ok_eq {r : ReservedIDs} {ext : Externals} {s s' : SymbolTableInfo}
    {id : SymID} {obj : ObjSym} (h : createBlkObj r ext s id = .ok obj s') :
    obj.symId = id ∧ s' = { s with objMap := OrderedMap.assign s.objMap id obj } := by
  unfold createBlkObj at h
  split at h
  · split at h
    · simp only [Outcome.ok.injEq] at h
      obtain ⟨h1, h2⟩ := h
      subst h1
      exact ⟨rfl, h2.symm⟩
    · exact absurd h (by simp)
  · exact absurd h (by simp)

theorem createConstantObj_ok_eq {r : ReservedIDs} {ext : Externals} {s s' : SymbolTableInfo}
    {id : SymID} {obj : ObjSym} (h : createConstantObj r ext s id = .ok obj s') :
    obj.symId = id ∧ s' = { s with objMap := OrderedMap.assign s.objMap id obj } := by
  unfold createConstantObj at h
  split at h
  · split at h
    · simp only [Outcome.ok.injEq] at h
      obtain ⟨h1, h2⟩ := h
      subst h1
      exact ⟨rfl, h2.symm⟩
    · exact absurd h (by simp)
  · exact absurd h (by simp)

theorem createDummyObj_ok_eq {ext : Externals} {s s' : SymbolTableInfo}
    {id : SymID} {ty : TypePtr} {obj : ObjSym} (h : createDummyObj ext s id ty = .ok obj s') :
    obj.symId = id ∧ s' = { s with objMap := OrderedMap.assign s.objMap id obj } := by
  unfold createDummyObj at h
  split at h
  · simp only [Outcome.ok.injEq] at h
    obtain ⟨h1, h2⟩ := h
    subst h1
    exact ⟨rfl, h2.symm⟩
  · exact absurd h (by simp)

theorem create_fatal_of_present (r : ReservedIDs) (ext : Externals) (s : SymbolTableInfo)
    (id : SymID) (ty : TypePtr) (h : OrderedMap.find s.objMap id ≠ none) :
    (∃ e, createBlkObj r ext s id = .fatal e s) ∧
    (∃ e, createConstantObj r ext s id = .fatal e s) ∧
    (∃ e, createDummyObj ext s id ty = .fatal e s) := by
  refine ⟨?_, ?_, ?_⟩
  · unfold createBlkObj
    by_cases hb : isBlkObj r id = true
    · exact ⟨.objAlreadyCreated, by simp [hb, h]⟩
    · exact ⟨.notBlkObj, by simp [hb]⟩
  · unfold createConstantObj
    by_cases hb : isConstantObj r id = true
    · exact ⟨.objAlreadyCreated, by simp [hb, h]⟩
    · exact ⟨.notConstantObj, by simp [hb]⟩
  · unfold createDummyObj
    exact ⟨.dummyObjCreatedBefore, by simp [h]⟩

/-- C4: when `id` is already a key of the object map, `createBlkObj`,
`createConstantObj` and `createDummyObj` abort and the registry, the object
stored under `id` included, is as it was; and after any of the three has
returned for `id`, each of the three aborts for `id`. -/
theorem create_rejects_duplicate (r : ReservedIDs) (ext : Externals) (s : SymbolTableInfo)
    (id : SymID) (ty : TypePtr) :
    (OrderedMap.find s.objMap id ≠ none →
      (∃ e, createBlkObj r ext s id = .fatal e s) ∧
      (∃ e, createConstantObj r ext s id = .fatal e s) ∧
      (∃ e, createDummyObj ext s id ty = .fatal e s)) ∧
    (∀ (obj : ObjSym) (s' : SymbolTableInfo) (ty' : TypePtr),
      (createBlkObj r ext s id = .ok obj s' ∨ createConstantObj r ext s id = .ok obj s' ∨
        createDummyObj ext s id ty = .ok obj s') →
      (∃ e, createBlkObj r ext s' id = .fatal e s') ∧
      (∃ e, createConstantObj r ext s' id = .fatal e s') ∧
      (∃ e, createDummyObj ext s' id ty' = .fatal e s') ∧
      OrderedMap.find s'.objMap id = some obj) := by
  refine ⟨create_fatal_of_present r ext s id ty, ?_⟩
  intro obj s' ty' h
  have hf : OrderedMap.find s'.objMap id = some obj := by
    rcases h with h | h | h
    · rw [(createBlkObj_ok_eq h).2]
      exact OrderedMap.find_assign_self _ _ _
    · rw [(createConstantObj_ok_eq h).2]
      exact OrderedMap.find_assign_self _ _ _
    · rw [(createDummyObj_ok_eq h).2]
      exact OrderedMap.find_assign_self _ _ _
  have hp : OrderedMap.find s'.objMap id ≠ none := by simp [hf]
  obtain ⟨h1, h2, h3⟩ := create_fatal_of_present r ext s' id ty' hp
  exact ⟨h1, h2, h3, hf⟩

/-- C4, at a concrete registry: ID 6 already has an object, and a dummy
object created for ID 40 cannot be created again. -/
theorem create_rejects_duplicate_witness :
    ((∃ e, createBlkObj exampleIDs exampleExt exampleTable 6 = .fatal e exampleTable) ∧
      (∃ e, createConstantObj exampleIDs exampleExt exampleTable 6 = .fatal e exampleTable) ∧
      (∃ e, createDummyObj exampleExt exampleTable 6 30 = .fatal e exampleTable)) ∧
    (∃ e, createDummyObj exampleExt
        (createDummyObj exampleExt exampleTable 40 30).state 40 31 =
      .fatal e (createDummyObj exampleExt exampleTable 40 30).state) :=
  ⟨(create_rejects_duplicate exampleIDs exampleExt exampleTable 6 30).1 (by decide),
   ((create_rejects_duplicate exampleIDs exampleExt exampleTable 40 30).2
      (ObjSym.mk .ordinary 40 (ObjTypeInfo.mk 30 0 1 0))
      (createDummyObj exampleExt exampleTable 40 30).state 31
      (Or.inr (Or.inr (by decide)))).2.2.1⟩

theorem createdAt_assign (s : SymbolTableInfo) (id : SymID) (obj : ObjSym) :
    CreatedAt s id obj { s with objMap := OrderedMap.assign s.objMap id obj } := by
  refine ⟨rfl, OrderedMap.find_assign_self _ _ _, ?_, ?_⟩
  · intro id2 hne
    exact OrderedMap.find_assign_of_ne _ _ _ _ hne
  · simp [getObj, OrderedMap.find_assign_self]

/-- C5 as stated fails: ID 40 is not a key of the object map, and
`createBlkObj(40)` and `createConstantObj(40)` abort on their first assertion,
because 40 is not the reserved ID. Whatever the reserved IDs are,
`createBlkObj` aborts for the ID `ConstantObj` and `createConstantObj` for the
ID `BlackHole`, also in the registry just constructed. -/
theorem create_special_obj_rejects_other_id :
    OrderedMap.find exampleTable.objMap 40 = none ∧
    createBlkObj exampleIDs exampleExt exampleTable 40 = .fatal .notBlkObj exampleTable ∧
    createConstantObj exampleIDs exampleExt exampleTable 40 =
      .fatal .notConstantObj exampleTable ∧
    (∀ (r : ReservedIDs) (ext : Externals) (n : Nat),
      createBlkObj r ext (SymbolTableInfo.init n) r.ConstantObj =
        .fatal .notBlkObj (SymbolTableInfo.init n) ∧
      createConstantObj r ext (SymbolTableInfo.init n) r.BlackHole =
        .fatal .notConstantObj (SymbolTableInfo.init n)) := by
  refine ⟨by decide, by decide, by decide, ?_⟩
  intro r ext n
  have h := r.pairwise_ne.2.2.2.2.2
  have h1 : ¬ r.ConstantObj = r.BlackHole := fun e => h e.symm
  simp [createBlkObj, createConstantObj, isBlkObj, isConstantObj, h, h1]

/-- C5, amended: for an `id` that is not a key of the object map,
`createDummyObj(id, type)` returns; `createBlkObj(id)` returns when `id` is
`BlackHole` and aborts on its first assertion otherwise; `createConstantObj(id)`
returns when `id` is `ConstantObj` and aborts on its first assertion
otherwise. A call that returns gives an object of its variant that owns `id`,
stored under `id`; the other entries of the object map and the other members
of the registry are unchanged, and `getObj(id)` then returns that object. -/
theorem create_inserts_new_object (r : ReservedIDs) (ext : Externals) (s : SymbolTableInfo)
    (id : SymID) (ty : TypePtr) (h : OrderedMap.find s.objMap id = none) :
    (id = r.BlackHole → ∃ s', createBlkObj r ext s id =
        .ok (ObjSym.mk .blackhole id (ext.createObjTypeInfo nullptr)) s' ∧
      CreatedAt s id (ObjSym.mk .blackhole id (ext.createObjTypeInfo nullptr)) s') ∧
    (id ≠ r.BlackHole → createBlkObj r ext s id = .fatal .notBlkObj s) ∧
    (id = r.ConstantObj → ∃ s', createConstantObj r ext s id =
        .ok (ObjSym.mk .constant id (ext.createObjTypeInfo nullptr)) s' ∧
      CreatedAt s id (ObjSym.mk .constant id (ext.createObjTypeInfo nullptr)) s') ∧
    (id ≠ r.ConstantObj → createConstantObj r ext s id = .fatal .notConstantObj s) ∧
    (∃ s', createDummyObj ext s id ty =
        .ok (ObjSym.mk .ordinary id (ext.createObjTypeInfo ty)) s' ∧
      CreatedAt s id (ObjSym.mk .ordinary id (ext.createObjTypeInfo ty)) s') := by
  refine ⟨?_, ?_, ?_, ?_, ?_⟩
  · intro hid
    subst hid
    exact ⟨_, by simp [createBlkObj, isBlkObj, h], createdAt_assign s _ _⟩
  · intro hid
    simp [createBlkObj, isBlkObj, hid]
  · intro hid
    subst hid
    exact ⟨_, by simp [createConstantObj, isConstantObj, h], createdAt_assign s _ _⟩
  · intro hid
    simp [createConstantObj, isConstantObj, hid]
  · exact ⟨_, by simp [createDummyObj, h], createdAt_assign s id _⟩

/-- C5 amended, at a concrete registry: the blackhole object is created under
the reserved ID 2, and a dummy object under ID 40. -/
theorem create_inserts_new_object_witness :
    (∃ s', createBlkObj exampleIDs exampleExt exampleTable 2 =
        .ok (ObjSym.mk .blackhole 2 (ObjTypeInfo.mk 0 0 1 0)) s' ∧
      CreatedAt exampleTable 2 (ObjSym.mk .blackhole 2 (ObjTypeInfo.mk 0 0 1 0)) s') ∧
    (∃ s', createDummyObj exampleExt exampleTable 40 30 =
        .ok (ObjSym.mk .ordinary 40 (ObjTypeInfo.mk 30 0 1 0)) s' ∧
      CreatedAt exampleTable 40 (ObjSym.mk .ordinary 40 (ObjTypeInfo.mk 30 0 1 0)) s') :=
  ⟨(create_inserts_new_object exampleIDs exampleExt exampleTable 2 30 (by decide)).1 rfl,
   (create_inserts_new_object exampleIDs exampleExt exampleTable 40 30 (by decide)).2.2.2.2⟩

/-! ## The layout cache -/

theorem getStructInfo_of_cached (cti : SymbolTableInfo → TypePtr → Outcome Unit)
    (s : SymbolTableInfo) (T : TypePtr) (st : StInfo) (hT : T ≠ nullptr)
    (h : OrderedMap.find s.typeToFieldInfo T = some st) :
    getStructInfo cti s T = .ok st s := by
  simp [getStructInfo, getStructInfoIter, hT, h]

theorem getStructInfo_ok_cached (cti : SymbolTableInfo → TypePtr → Outcome Unit)
    (s s' : SymbolTableInfo) (T : TypePtr) (st : StInfo)
    (h : getStructInfo cti s T = .ok st s') :
    T ≠ nullptr ∧ OrderedMap.find s'.typeToFieldInfo T = some st := by
  unfold getStructInfo getStructInfoIter at h
  by_cases hT : T = nullptr
  · simp [hT] at h
  · refine ⟨hT, ?_⟩
    simp only [hT, if_false] at h
    cases hf : OrderedMap.find s.typeToFieldInfo T with
    | some st0 =>
      simp only [hf, Outcome.ok.injEq] at h
      obtain ⟨h1, h2⟩ := h
      subst h1
      subst h2
      exact hf
    | none =>
      simp only [hf] at h
      cases hc : cti s T with
      | fatal e s1 => simp [hc] at h
      | ok u s1 =>
        simp only [hc] at h
        cases hf1 : OrderedMap.find s1.typeToFieldInfo T with
        | none => simp [hf1] at h
        | some st1 =>
          simp only [hf1, Option.map_some', Outcome.ok.injEq] at h
          obtain ⟨h1, h2⟩ := h
          subst h1
          subst h2
          exact hf1

/-- C6: when `getStructInfo(T)` has returned a layout, a second call returns
the same layout and leaves the registry, the cache included, as the first call
left it, whatever `collectTypeInfo` would do, even abort: it is not called.
And a non-null type that is in the cache is answered from the cache, without
`collectTypeInfo` and without any change of the registry. -/
theorem getStructInfo_idempotent (collectTypeInfo : SymbolTableInfo → TypePtr → Outcome Unit)
    (s : SymbolTableInfo) (T : TypePtr) :
    (∀ (st : StInfo) (s' : SymbolTableInfo), getStructInfo collectTypeInfo s T = .ok st s' →
      getStructInfo collectTypeInfo s' T = .ok st s' ∧
      (∀ other : SymbolTableInfo → TypePtr → Outcome Unit, getStructInfo other s' T = .ok st s') ∧
      OrderedMap.find s'.typeToFieldInfo T = some st) ∧
    (∀ st : StInfo, T ≠ nullptr → OrderedMap.find s.typeToFieldInfo T = some st →
      ∀ other : SymbolTableInfo → TypePtr → Outcome Unit, getStructInfo other s T = .ok st s) := by
  refine ⟨?_, ?_⟩
  · intro st s' h
    obtain ⟨hT, hf⟩ := getStructInfo_ok_cached collectTypeInfo s s' T st h
    exact ⟨getStructInfo_of_cached _ s' T st hT hf,
      fun other => getStructInfo_of_cached other s' T st hT hf, hf⟩
  · intro st hT hf other
    exact getStructInfo_of_cached other s T st hT hf

/-- C6, at a concrete registry: type 31 is not in the cache; the first call
collects its layout, and the second call returns the same layout even with a
collector that aborts. Type 30 is in the cache from the start. -/
theorem getStructInfo_idempotent_witness :
    getStructInfo exampleCollect exampleTable 31 =
      .ok (StInfo.mk [0] [0] [FieldInfo.mk 0 0 31]) (exampleCollect exampleTable 31).state ∧
    getStructInfo abortingCollect (exampleCollect exampleTable 31).state 31 =
      .ok (StInfo.mk [0] [0] [FieldInfo.mk 0 0 31]) (exampleCollect exampleTable 31).state ∧
    getStructInfo abortingCollect exampleTable 30 =
      .ok (StInfo.mk [0, 1] [0, 4] [FieldInfo.mk 0 0 31, FieldInfo.mk 1 4 31]) exampleTable :=
  ⟨by decide,
   ((getStructInfo_idempotent exampleCollect exampleTable 31).1 _ _ (by decide)).2.1
     abortingCollect,
   (getStructInfo_idempotent exampleCollect exampleTable 30).2 _ (by decide) (by decide)
     abortingCollect⟩

/-! ## The modulus fallback -/

/-- C8: for an object with `n > 0` flattened fields, `getModulusOffset` returns
for every location set, without aborting and without changing the registry, a
location whose field index is at least 0 and less than `n`. -/
theorem getModulusOffset_in_range (s : SymbolTableInfo) (obj : ObjSym) (ls : LocationSet)
    (hn : 0 < obj.typeInfo.fieldCount) :
    ∃ l : LocationSet, getModulusOffset s obj ls = .ok l s ∧
      0 ≤ l.fldIdx ∧ l.fldIdx < (obj.typeInfo.fieldCount : Int) := by
  have hpos : (0 : Int) < (obj.typeInfo.fieldCount : Int) := by exact_mod_cast hn
  exact ⟨_, rfl, Int.emod_nonneg _ (ne_of_gt hpos), Int.emod_lt_of_pos _ hpos⟩

/-- C8, at a concrete object with 2 fields: the offsets 7 and -3 both resolve to field 1. -/
theorem getModulusOffset_in_range_witness :
    (0 < (ObjSym.mk .ordinary 6 (ObjTypeInfo.mk 30 8 2 0)).typeInfo.fieldCount) ∧
    (∃ l : LocationSet,
      getModulusOffset exampleTable (ObjSym.mk .ordinary 6 (ObjTypeInfo.mk 30 8 2 0))
        (LocationSet.mk (-3)) = .ok l exampleTable ∧ 0 ≤ l.fldIdx ∧ l.fldIdx < (2 : Int)) ∧
    getModulusOffset exampleTable (ObjSym.mk .ordinary 6 (ObjTypeInfo.mk 30 8 2 0))
      (LocationSet.mk 7) = .ok (LocationSet.mk 1) exampleTable :=
  ⟨by decide,
   getModulusOffset_in_range exampleTable (ObjSym.mk .ordinary 6 (ObjTypeInfo.mk 30 8 2 0))
     (LocationSet.mk (-3)) (by decide),
   by decide⟩

/-! ## The data layout -/

/-- C9 as stated fails: after the layout of module 1 has been requested, the
request for module 2 returns the layout built from module 1, not one built
from module 2. -/
theorem getDataLayout_other_module_first :
    getDataLayout (SymbolTableInfo.init 512) 1 =
      .ok (DataLayout.mk 1) { SymbolTableInfo.init 512 with dl := some (DataLayout.mk 1) } ∧
    getDataLayout { SymbolTableInfo.init 512 with dl := some (DataLayout.mk 1) } 2 =
      .ok (DataLayout.mk 1) { SymbolTableInfo.init 512 with dl := some (DataLayout.mk 1) } ∧
    DataLayout.mk 1 ≠ DataLayout.mk 2 := by
  decide

/-- C9, amended: the registry caches one data layout. `getDataLayout(m)` never
aborts; when no layout is cached it builds the layout from `m` and caches it,
changing nothing else; when a layout is cached it returns that one and changes
nothing; and every later request, for whatever module, returns the same
layout and changes nothing. -/
theorem getDataLayout_single_slot (s : SymbolTableInfo) (m : ModulePtr) :
    ∃ (d : DataLayout) (s' : SymbolTableInfo), getDataLayout s m = .ok d s' ∧
      s'.dl = some d ∧
      (s.dl = none → d = DataLayout.mk m ∧ s' = { s with dl := some (DataLayout.mk m) }) ∧
      (∀ d0, s.dl = some d0 → d = d0 ∧ s' = s) ∧
      (∀ m2 : ModulePtr, getDataLayout s' m2 = .ok d s') := by
  unfold getDataLayout
  cases h : s.dl with
  | none => exact ⟨_, _, rfl, rfl, fun _ => ⟨rfl, rfl⟩, fun d0 hd => by simp at hd, fun m2 => rfl⟩
  | some d =>
    refine ⟨d, s, rfl, h, fun hn => by simp at hn, fun d0 hd => ?_, fun m2 => ?_⟩
    · simp only [Option.some.injEq] at hd
      exact ⟨hd, rfl⟩
    · simp [h]

/-! ## Uniqueness of symbol IDs -/

namespace OrderedMap

end OrderedMap

theorem Extends.trans {s1 s2 s3 : SymbolTableInfo} (h12 : Extends s1 s2) (h23 : Extends s2 s3) :
    Extends s1 s3 :=
  ⟨fun k i h => h23.1 k i (h12.1 k i h), fun k i h => h23.2.1 k i (h12.2.1 k i h),
   fun k i h => h23.2.2.1 k i (h12.2.2.1 k i h),
   fun k i h => h23.2.2.2.1 k i (h12.2.2.2.1 k i h),
   fun k o h => h23.2.2.2.2 k o (h12.2.2.2.2 k o h)⟩

/-- The discipline rejects the run that gives two values one ID, a run that
gives a value the ID of an object, a run that creates an object under the ID
of a value, runs that give a value the ID `BlackHole` or a return slot the ID
`ConstantObj`, a run that creates a dummy object under the ID of an object
symbol, and a run that replaces an object. -/
theorem freshRun_rejects :
    freshRun exampleIDs exampleExt (SymbolTableInfo.init 512) sharedIdRun = false ∧
    freshRun exampleIDs exampleExt (SymbolTableInfo.init 512)
      [.createDummyObj 4 30, .setValSym 10 4] = false ∧
    freshRun exampleIDs exampleExt (SymbolTableInfo.init 512)
      [.setValSym 10 4, .setObjSym 10 5, .createDummyObj 4 30] = false ∧
    freshRun exampleIDs exampleExt (SymbolTableInfo.init 512) [.setValSym 10 2] = false ∧
    freshRun exampleIDs exampleExt (SymbolTableInfo.init 512)
      [.createBlkObj 2, .setValSym 10 2, .setRetSym 20 3] = false ∧
    freshRun exampleIDs exampleExt (SymbolTableInfo.init 512) [.setRetSym 20 3] = false ∧
    freshRun exampleIDs exampleExt (SymbolTableInfo.init 512)
      [.setObjSym 10 5, .createDummyObj 5 30] = false ∧
    freshRun exampleIDs exampleExt (SymbolTableInfo.init 512)
      [.setObj 5 (ObjSym.mk .ordinary 5 (ObjTypeInfo.mk 30 8 2 0)),
       .setObj 5 (ObjSym.mk .ordinary 5 (ObjTypeInfo.mk 31 4 1 0))] = false := by
  decide

end SVF
